import Mathlib

/-!
Shallow embedding of the agent-browser CLI client (src/cli/src/main.rs):
the command translator (`parse_command`), the daemon supervisor
(`ensure_daemon` with its readiness poll), the top-level dispatch of `main`,
and the human-mode response renderer (`print_response`).  External effects
(filesystem, process table, clock) are passed in as explicit state.
-/

set_option autoImplicit false

namespace AgentBrowser

/-- A JSON scalar value.  Every field the CLI writes into a request object and
every field the renderer inspects in a response payload is a scalar (string,
integer, boolean or null), so scalars suffice for the object fields here. -/
inductive JVal where
  | jnull
  | jbool (b : Bool)
  | jnum (n : Int)
  | jstr (s : String)
  deriving Repr, DecidableEq

/-- A JSON object: an association list of field names to scalar values. -/
abbrev JObj := List (String × JVal)

/-- Field lookup in a JSON object (first match), as `serde_json::Value::get`. -/
def jget (o : JObj) (k : String) : Option JVal :=
  (o.find? (fun p => p.1 = k)).map (·.2)

/-- As `serde_json::Map::insert`: replace the value of an existing key,
otherwise add the field. -/
def jinsert (o : JObj) (k : String) (v : JVal) : JObj :=
  if o.any (fun p => p.1 = k) then o.map (fun p => if p.1 = k then (k, v) else p)
  else o ++ [(k, v)]

/-- The value of a nonempty all-digit character list, `none` otherwise.
Helper for Rust integer parsing. -/
def decDigits? (cs : List Char) : Option Nat :=
  if cs ≠ [] ∧ cs.all (·.isDigit) then
    some (cs.foldl (fun a c => a * 10 + (c.toNat - 48)) 0)
  else none

/-- Rust `str::parse::<u64>`: an optional leading `+`, then decimal digits,
rejecting values outside `u64` range. -/
def parseU64 (s : String) : Option Nat :=
  let body := match s.data with
    | '+' :: t => t
    | t => t
  match decDigits? body with
  | some n => if n < 2 ^ 64 then some n else none
  | none => none

/-- Rust `str::parse::<i32>`: an optional leading `+` or `-`, then decimal
digits, rejecting values outside `i32` range. -/
def parseI32 (s : String) : Option Int :=
  match s.data with
  | '+' :: t => (decDigits? t).bind fun n =>
      if n ≤ 2 ^ 31 - 1 then some (n : Int) else none
  | '-' :: t => (decDigits? t).bind fun n =>
      if n ≤ 2 ^ 31 then some (-(n : Int)) else none
  | t => (decDigits? t).bind fun n =>
      if n ≤ 2 ^ 31 - 1 then some (n : Int) else none

/-- Rust `str::starts_with` on plain strings, computed on the character
lists. -/
def starts_with (s pre : String) : Bool :=
  pre.data.isPrefixOf s.data

/-- Rust `str::trim`: drop leading and trailing whitespace. -/
def trim_ws (s : String) : String :=
  ⟨((s.data.dropWhile Char.isWhitespace).reverse.dropWhile Char.isWhitespace).reverse⟩

/-- URL normalisation of the `open|goto|navigate` arm: prepend `https://`
unless the token already starts with `http`. -/
def httpsify (url : String) : String :=
  if starts_with url "http" then url else "https://" ++ url

/-- The flag scan of the `snapshot` arm: walk the remaining tokens; `-d`,
`--depth`, `-s` and `--selector` read the token that follows them (in the
source, `rest.get(i + 1)`, which in this suffix recursion is the head of the
tail).  Unrecognised tokens are ignored. -/
def snapFlags : List String → JObj → JObj
  | [], obj => obj
  | arg :: tl, obj =>
    let obj' :=
      if arg = "-i" ∨ arg = "--interactive" then jinsert obj "interactive" (.jbool true)
      else if arg = "-c" ∨ arg = "--compact" then jinsert obj "compact" (.jbool true)
      else if arg = "-d" ∨ arg = "--depth" then
        match tl.head? with
        | some d =>
          match parseI32 d with
          | some n => jinsert obj "maxDepth" (.jnum n)
          | none => obj
        | none => obj
      else if arg = "-s" ∨ arg = "--selector" then
        match tl.head? with
        | some s => jinsert obj "selector" (.jstr s)
        | none => obj
      else obj
    snapFlags tl obj'

/-- The command translator `parse_command`.  The request id is generated from
the wall clock in the source (`gen_id`), so it is taken as a parameter. -/
def parse_command (id : String) (args : List String) : Option JObj :=
  match args with
  | [] => none
  | cmd :: rest =>
    if cmd = "open" ∨ cmd = "goto" ∨ cmd = "navigate" then
      rest.head?.map fun url =>
        [("id", .jstr id), ("action", .jstr "navigate"), ("url", .jstr (httpsify url))]
    else if cmd = "click" then
      rest.head?.map fun sel =>
        [("id", .jstr id), ("action", .jstr "click"), ("selector", .jstr sel)]
    else if cmd = "fill" then
      rest.head?.map fun sel =>
        [("id", .jstr id), ("action", .jstr "fill"), ("selector", .jstr sel),
         ("value", .jstr (String.intercalate " " (rest.drop 1)))]
    else if cmd = "type" then
      rest.head?.map fun sel =>
        [("id", .jstr id), ("action", .jstr "type"), ("selector", .jstr sel),
         ("text", .jstr (String.intercalate " " (rest.drop 1)))]
    else if cmd = "hover" then
      rest.head?.map fun sel =>
        [("id", .jstr id), ("action", .jstr "hover"), ("selector", .jstr sel)]
    else if cmd = "snapshot" then
      some (snapFlags rest [("id", .jstr id), ("action", .jstr "snapshot")])
    else if cmd = "screenshot" then
      some [("id", .jstr id), ("action", .jstr "screenshot"),
            ("path", match rest.head? with | some p => .jstr p | none => .jnull)]
    else if cmd = "close" ∨ cmd = "quit" ∨ cmd = "exit" then
      some [("id", .jstr id), ("action", .jstr "close")]
    else if cmd = "get" then
      if rest.head? = some "text" then
        (rest.get? 1).map fun sel =>
          [("id", .jstr id), ("action", .jstr "gettext"), ("selector", .jstr sel)]
      else if rest.head? = some "url" then some [("id", .jstr id), ("action", .jstr "url")]
      else if rest.head? = some "title" then some [("id", .jstr id), ("action", .jstr "title")]
      else none
    else if cmd = "press" then
      rest.head?.map fun k =>
        [("id", .jstr id), ("action", .jstr "press"), ("key", .jstr k)]
    else if cmd = "wait" then
      match rest.head? with
      | none => none
      | some arg =>
        match parseU64 arg with
        | some n => some [("id", .jstr id), ("action", .jstr "wait"), ("timeout", .jnum n)]
        | none => some [("id", .jstr id), ("action", .jstr "wait"), ("selector", .jstr arg)]
    else if cmd = "back" then some [("id", .jstr id), ("action", .jstr "back")]
    else if cmd = "forward" then some [("id", .jstr id), ("action", .jstr "forward")]
    else if cmd = "reload" then some [("id", .jstr id), ("action", .jstr "reload")]
    else if cmd = "eval" then
      some [("id", .jstr id), ("action", .jstr "evaluate"),
            ("script", .jstr (String.intercalate " " rest))]
    else none

/-- Specification-side characterisation of when the translator yields no
request: the primary token is unrecognised, or a required positional argument
is missing (for `fill` and `type` only the selector is required; `get`
requires a recognised sub-verb, with a selector after `text`; `wait` requires
an argument). -/
def translatesToNone (args : List String) : Bool :=
  match args with
  | [] => true
  | cmd :: rest =>
    if cmd = "open" ∨ cmd = "goto" ∨ cmd = "navigate" ∨ cmd = "click" ∨ cmd = "fill" ∨
       cmd = "type" ∨ cmd = "hover" ∨ cmd = "press" ∨ cmd = "wait" then
      rest.isEmpty
    else if cmd = "get" then
      if rest.head? = some "text" then (rest.get? 1).isNone
      else if rest.head? = some "url" then false
      else if rest.head? = some "title" then false
      else true
    else if cmd = "snapshot" ∨ cmd = "screenshot" ∨ cmd = "close" ∨ cmd = "quit" ∨
            cmd = "exit" ∨ cmd = "back" ∨ cmd = "forward" ∨ cmd = "reload" ∨ cmd = "eval" then
      false
    else true

/-! ## Daemon supervisor (`is_daemon_running`, `ensure_daemon`) -/

/-- The filesystem / process-table state the supervisor consults.  The socket
file's existence is time dependent: `socketAt 0` is the check in the liveness
guard, and `socketAt (k + 1)` is the check of poll attempt `k` after the
spawn. -/
structure EnsureWorld where
  /-- Whether the PID file exists. -/
  pidFileExists : Bool
  /-- Result of `fs::read_to_string` on the PID file (`none`: read failed). -/
  pidRead : Option String
  /-- Whether `libc::kill(pid, 0) == 0` for a given PID. -/
  probeOk : Int → Bool
  /-- Socket-file existence at the successive checks (see above). -/
  socketAt : Nat → Bool
  /-- Result of `env::current_exe()` (`.error e`: it failed with message `e`). -/
  currentExe : Except String Unit
  /-- Whether some candidate `daemon.js` path exists. -/
  daemonFound : Bool
  /-- Result of `Command::spawn` (`none`: success; `some e`: error message). -/
  spawnErr : Option String

/-- Fixed number of readiness poll attempts (`for _ in 0..50`). -/
def POLL_ATTEMPTS : Nat := 50

/-- Fixed sleep between poll attempts, in milliseconds
(`Duration::from_millis(100)`). -/
def POLL_INTERVAL_MS : Nat := 100

/-- `is_daemon_running`: the PID file must exist, read and parse (trimmed) as
an `i32`, and the zero-signal probe of that PID must succeed. -/
def is_daemon_running (w : EnsureWorld) : Bool :=
  if !w.pidFileExists then false
  else
    match w.pidRead with
    | some s =>
      match parseI32 (trim_ws s) with
      | some pid => w.probeOk pid
      | none => false
    | none => false

/-- The readiness poll loop of `ensure_daemon`: starting at attempt `a` with
`r` attempts remaining, return the index of the first attempt at which the
socket exists, or the timeout error.  Each failed attempt sleeps once, so a
success at attempt `k` has slept `k` times. -/
def pollSocket (f : Nat → Bool) : Nat → Nat → Except String Nat
  | _, 0 => .error "Daemon failed to start"
  | a, r + 1 => if f a then .ok a else pollSocket f (a + 1) r

deriving instance DecidableEq for Except

/-- Result of one `ensure_daemon` call, with the side effects recorded:
whether the early liveness guard returned `Ok` and whether a daemon process
was spawned. -/
structure EnsureResult where
  result : Except String Unit
  earlyOk : Bool
  spawned : Bool
  deriving Repr, DecidableEq

/-- `ensure_daemon`: return `Ok` at once when the daemon is live and the
socket exists; otherwise resolve the executable, locate `daemon.js`, spawn
it, and poll for the socket. -/
def ensure_daemon (w : EnsureWorld) : EnsureResult :=
  if is_daemon_running w && w.socketAt 0 then ⟨.ok (), true, false⟩
  else
    match w.currentExe with
    | .error e => ⟨.error e, false, false⟩
    | .ok () =>
      if !w.daemonFound then
        ⟨.error "Daemon not found. Run from project directory or ensure daemon.js is alongside binary.",
         false, false⟩
      else
        match w.spawnErr with
        | some e => ⟨.error ("Failed to start daemon: " ++ e), false, false⟩
        | none =>
          match pollSocket (fun k => w.socketAt (k + 1)) 0 POLL_ATTEMPTS with
          | .ok _ => ⟨.ok (), false, true⟩
          | .error e => ⟨.error e, false, true⟩

/-! ## Top-level dispatch (`main`) -/

/-- What a `main` invocation does before any external interaction: print
help, run the install workflow, report an unknown command, or proceed to the
daemon (ensure + send) with the built request. -/
inductive MainOutcome where
  | helpShown
  | installRun (withDeps : Bool)
  | unknownCmd (tok : String)
  | proceed (jsonMode : Bool) (cmd : JObj)
  deriving Repr, DecidableEq

/-- Whether the outcome contacts the daemon (supervisor or socket). -/
def MainOutcome.contactsDaemon : MainOutcome → Bool
  | .proceed _ _ => true
  | _ => false

/-- Whether the outcome reports an unknown command on stderr. -/
def MainOutcome.reportsUnknown : MainOutcome → Bool
  | .unknownCmd _ => true
  | _ => false

/-- The process exit code, where `main` determines it before external calls:
the help path returns (code 0) and the unknown-command path calls `exit(1)`;
install and daemon outcomes depend on external processes (`none`). -/
def MainOutcome.exitEarly : MainOutcome → Option Nat
  | .helpShown => some 0
  | .unknownCmd _ => some 1
  | _ => none

/-- The argument filter of `main`: every token starting with `--` is removed
before translation. -/
def cleanArgs (args : List String) : List String :=
  args.filter (fun a => !starts_with a "--")

/-- The dispatch logic of `main`: detect `--json`, filter `--`-prefixed
tokens, handle help and `install`, then translate; an untranslatable command
is reported as unknown. -/
def mainModel (id : String) (args : List String) : MainOutcome :=
  let json_mode := args.any (fun a => a = "--json")
  let clean_args := cleanArgs args
  if clean_args.isEmpty || args.any (fun a => a = "--help" || a = "-h") then
    .helpShown
  else if clean_args.head? = some "install" then
    .installRun (args.any (fun a => a = "--with-deps" || a = "-d"))
  else
    match parse_command id clean_args with
    | some c => .proceed json_mode c
    | none => .unknownCmd ((clean_args.head?).getD "")

/-! ## Response renderer (`print_response`, human mode) -/

/-- The wire response: `success`, optional payload, optional error string.
The payload is modelled as a JSON object of scalar fields, the shapes the
renderer distinguishes. -/
structure Response where
  success : Bool
  data : Option JObj
  error : Option String
  deriving Repr, DecidableEq

/-- What a render produced: stdout lines, stderr lines, and an exit code when
the renderer itself terminated the process. -/
structure RenderOut where
  stdoutLines : List String
  stderrLines : List String
  exited : Option Nat
  deriving Repr, DecidableEq

/-- Field lookup returning a string, as `data.get(k).and_then(|v| v.as_str())`. -/
def jgetStr (o : JObj) (k : String) : Option String :=
  match jget o k with
  | some (.jstr s) => some s
  | _ => none

/-- `print_response` in human (non-JSON) mode: on failure print the error (or
the literal fallback) to stderr and exit 1; on success render the first
matching payload shape, or nothing when there is no payload. -/
def print_response_human (r : Response) : RenderOut :=
  if !r.success then
    ⟨[], ["\x1b[31m✗ Error:\x1b[0m " ++ (r.error.getD "Unknown error")], some 1⟩
  else
    match r.data with
    | none => ⟨[], [], none⟩
    | some data =>
      match jgetStr data "url" with
      | some url =>
        match jgetStr data "title" with
        | some title =>
          ⟨["\x1b[32m✓\x1b[0m \x1b[1m" ++ title ++ "\x1b[0m", "\x1b[2m  " ++ url ++ "\x1b[0m"],
           [], none⟩
        | none => ⟨[url], [], none⟩
      | none =>
        match jgetStr data "snapshot" with
        | some snap => ⟨[snap], [], none⟩
        | none =>
          match jgetStr data "title" with
          | some title => ⟨[title], [], none⟩
          | none =>
            match jgetStr data "text" with
            | some text => ⟨[text], [], none⟩
            | none =>
              match jget data "result" with
              | some v => ⟨[prettyResult v], [], none⟩
              | none =>
                match jget data "closed" with
                | some _ => ⟨["\x1b[32m✓\x1b[0m Browser closed"], [], none⟩
                | none => ⟨["\x1b[32m✓\x1b[0m Done"], [], none⟩
where
  /-- `serde_json::to_string_pretty` of a scalar `result` value. -/
  prettyResult : JVal → String
    | .jnull => "null"
    | .jbool true => "true"
    | .jbool false => "false"
    | .jnum n => toString n
    | .jstr s => "\"" ++ s ++ "\""

/-- The tail of `main` after a response arrives in human mode: render it,
then exit 1 when `success` is false, else fall off `main` (exit 0). -/
def mainFinish (resp : Response) : Nat × RenderOut :=
  let out := print_response_human resp
  (out.exited.getD (if resp.success then 0 else 1), out)

/-! ## Claims about the command translator -/

/-- Claim C6: for every URL token, `open`/`goto`/`navigate` produce action
`navigate` with `https://` prepended exactly when the token does not start
with `http`, and the token unchanged otherwise; in particular
`open example.com` yields `https://example.com` and `open https://x.com` is
preserved. -/
theorem navigate_url_scheme (id url : String) :
    parse_command id ["open", url] =
      some [("id", .jstr id), ("action", .jstr "navigate"),
            ("url", .jstr (if starts_with url "http" then url else "https://" ++ url))] ∧
    parse_command id ["goto", url] = parse_command id ["open", url] ∧
    parse_command id ["navigate", url] = parse_command id ["open", url] ∧
    parse_command id ["open", "example.com"] =
      some [("id", .jstr id), ("action", .jstr "navigate"),
            ("url", .jstr "https://example.com")] ∧
    parse_command id ["open", "https://x.com"] =
      some [("id", .jstr id), ("action", .jstr "navigate"), ("url", .jstr "https://x.com")] := by
  refine ⟨rfl, rfl, rfl, rfl, rfl⟩

/-- Claim C8: the single `wait` argument is a timeout exactly when it parses
as an unsigned 64-bit integer, and a selector otherwise; `wait 500` yields
`timeout = 500` and `wait #foo` yields `selector = "#foo"`. -/
theorem wait_numeric_or_selector (id arg : String) :
    parse_command id ["wait", arg] =
      (match parseU64 arg with
       | some n => some [("id", .jstr id), ("action", .jstr "wait"), ("timeout", .jnum n)]
       | none => some [("id", .jstr id), ("action", .jstr "wait"), ("selector", .jstr arg)]) ∧
    ((∃ o, parse_command id ["wait", arg] = some o ∧ jget o "timeout" ≠ none) ↔
      (parseU64 arg).isSome = true) ∧
    parse_command id ["wait", "500"] =
      some [("id", .jstr id), ("action", .jstr "wait"), ("timeout", .jnum 500)] ∧
    parse_command id ["wait", "#foo"] =
      some [("id", .jstr id), ("action", .jstr "wait"), ("selector", .jstr "#foo")] := by
  have h1 : parse_command id ["wait", arg] =
      (match parseU64 arg with
       | some n => some [("id", .jstr id), ("action", .jstr "wait"), ("timeout", .jnum n)]
       | none => some [("id", .jstr id), ("action", .jstr "wait"), ("selector", .jstr arg)]) := rfl
  refine ⟨h1, ?_, rfl, rfl⟩
  rw [h1]
  cases hp : parseU64 arg <;> simp [jget]

/-- Claim C4, counterexample: `snapshot -i -d 3` sets `maxDepth = 3`, but the
permutation `snapshot -d -i 3` does not set `maxDepth` at all, because `-d`
reads only the token immediately after it. -/
theorem snapshot_permutation_counterexample :
    (parse_command "r0" ["snapshot", "-i", "-d", "3"]).bind (fun o => jget o "maxDepth") =
      some (.jnum 3) ∧
    (parse_command "r0" ["snapshot", "-d", "-i", "3"]).bind (fun o => jget o "maxDepth") =
      none := by
  exact ⟨rfl, rfl⟩

/-- Claim C4, amended: `snapshot -i -d 3` yields `interactive = true` and
`maxDepth = 3`; every permutation of the three tokens yields
`interactive = true`, but `maxDepth = 3` is set exactly in the two
permutations where `3` immediately follows `-d`, and the other four yield no
`maxDepth` field. -/
theorem snapshot_flag_permutations :
    parse_command "r0" ["snapshot", "-i", "-d", "3"] =
      some [("id", .jstr "r0"), ("action", .jstr "snapshot"),
            ("interactive", .jbool true), ("maxDepth", .jnum 3)] ∧
    parse_command "r0" ["snapshot", "-d", "3", "-i"] =
      some [("id", .jstr "r0"), ("action", .jstr "snapshot"),
            ("maxDepth", .jnum 3), ("interactive", .jbool true)] ∧
    parse_command "r0" ["snapshot", "-d", "-i", "3"] =
      some [("id", .jstr "r0"), ("action", .jstr "snapshot"), ("interactive", .jbool true)] ∧
    parse_command "r0" ["snapshot", "-i", "3", "-d"] =
      some [("id", .jstr "r0"), ("action", .jstr "snapshot"), ("interactive", .jbool true)] ∧
    parse_command "r0" ["snapshot", "3", "-i", "-d"] =
      some [("id", .jstr "r0"), ("action", .jstr "snapshot"), ("interactive", .jbool true)] ∧
    parse_command "r0" ["snapshot", "3", "-d", "-i"] =
      some [("id", .jstr "r0"), ("action", .jstr "snapshot"), ("interactive", .jbool true)] := by
  exact ⟨rfl, rfl, rfl, rfl, rfl, rfl⟩

/-- Claim C3: the long-form snapshot flags never reach the translator —
`main` filters every token starting with `--` out of the argument list before
calling `parse_command` — so `snapshot --interactive`, `snapshot --compact`,
`snapshot --depth 3` and `snapshot --selector #a` all build the bare snapshot
request, while the short forms set their fields.  This contradicts the help
text and the translator's own handling of the long forms. -/
theorem snapshot_long_flags_stripped :
    mainModel "r0" ["snapshot", "--interactive"] =
      .proceed false [("id", .jstr "r0"), ("action", .jstr "snapshot")] ∧
    mainModel "r0" ["snapshot", "--compact"] =
      .proceed false [("id", .jstr "r0"), ("action", .jstr "snapshot")] ∧
    mainModel "r0" ["snapshot", "--depth", "3"] =
      .proceed false [("id", .jstr "r0"), ("action", .jstr "snapshot")] ∧
    mainModel "r0" ["snapshot", "--selector", "#a"] =
      .proceed false [("id", .jstr "r0"), ("action", .jstr "snapshot")] ∧
    mainModel "r0" ["snapshot", "-i"] =
      .proceed false [("id", .jstr "r0"), ("action", .jstr "snapshot"),
                      ("interactive", .jbool true)] ∧
    mainModel "r0" ["snapshot", "-c"] =
      .proceed false [("id", .jstr "r0"), ("action", .jstr "snapshot"),
                      ("compact", .jbool true)] ∧
    mainModel "r0" ["snapshot", "-d", "3"] =
      .proceed false [("id", .jstr "r0"), ("action", .jstr "snapshot"),
                      ("maxDepth", .jnum 3)] ∧
    mainModel "r0" ["snapshot", "-s", "#a"] =
      .proceed false [("id", .jstr "r0"), ("action", .jstr "snapshot"),
                      ("selector", .jstr "#a")] := by
  exact ⟨rfl, rfl, rfl, rfl, rfl, rfl, rfl, rfl⟩

/-- Claim C5, counterexample: `fill #x` with no text tokens does not return
none — the translator requires only the selector and joins the (empty) rest
into an empty `value`. -/
theorem fill_missing_text_counterexample :
    parse_command "r0" ["fill", "#x"] =
      some [("id", .jstr "r0"), ("action", .jstr "fill"), ("selector", .jstr "#x"),
            ("value", .jstr "")] ∧
    parse_command "r0" ["fill", "#x"] ≠ none := by
  exact ⟨rfl, by decide⟩

/-- Claim C5, amended: the translator returns none exactly when the primary
token is unrecognised or a required positional argument is missing, where
`fill` and `type` require only the selector — the text tokens are optional
and join to an empty value, so `fill <sel>` yields a request with
`value = ""` rather than none. -/
theorem parse_command_none_characterisation (id : String) (args : List String) :
    (parse_command id args = none ↔ translatesToNone args = true) ∧
    (∀ sel, parse_command id ["fill", sel] =
        some [("id", .jstr id), ("action", .jstr "fill"), ("selector", .jstr sel),
              ("value", .jstr "")]) ∧
    (∀ sel, parse_command id ["type", sel] =
        some [("id", .jstr id), ("action", .jstr "type"), ("selector", .jstr sel),
              ("text", .jstr "")]) := by
  refine ⟨?_, fun sel => rfl, fun sel => rfl⟩
  cases args with
  | nil => exact iff_of_true rfl rfl
  | cons cmd rest =>
    by_cases h1 : cmd = "open"
    · subst h1; cases rest with
      | nil => exact iff_of_true rfl rfl
      | cons a tl => exact iff_of_false (fun hc => nomatch hc) (fun hc => nomatch hc)
    by_cases h2 : cmd = "goto"
    · subst h2; cases rest with
      | nil => exact iff_of_true rfl rfl
      | cons a tl => exact iff_of_false (fun hc => nomatch hc) (fun hc => nomatch hc)
    by_cases h3 : cmd = "navigate"
    · subst h3; cases rest with
      | nil => exact iff_of_true rfl rfl
      | cons a tl => exact iff_of_false (fun hc => nomatch hc) (fun hc => nomatch hc)
    by_cases h4 : cmd = "click"
    · subst h4; cases rest with
      | nil => exact iff_of_true rfl rfl
      | cons a tl => exact iff_of_false (fun hc => nomatch hc) (fun hc => nomatch hc)
    by_cases h5 : cmd = "fill"
    · subst h5; cases rest with
      | nil => exact iff_of_true rfl rfl
      | cons a tl => exact iff_of_false (fun hc => nomatch hc) (fun hc => nomatch hc)
    by_cases h6 : cmd = "type"
    · subst h6; cases rest with
      | nil => exact iff_of_true rfl rfl
      | cons a tl => exact iff_of_false (fun hc => nomatch hc) (fun hc => nomatch hc)
    by_cases h7 : cmd = "hover"
    · subst h7; cases rest with
      | nil => exact iff_of_true rfl rfl
      | cons a tl => exact iff_of_false (fun hc => nomatch hc) (fun hc => nomatch hc)
    by_cases h8 : cmd = "snapshot"
    · subst h8; exact iff_of_false (fun hc => nomatch hc) (fun hc => nomatch hc)
    by_cases h9 : cmd = "screenshot"
    · subst h9; exact iff_of_false (fun hc => nomatch hc) (fun hc => nomatch hc)
    by_cases h10 : cmd = "close"
    · subst h10; exact iff_of_false (fun hc => nomatch hc) (fun hc => nomatch hc)
    by_cases h11 : cmd = "quit"
    · subst h11; exact iff_of_false (fun hc => nomatch hc) (fun hc => nomatch hc)
    by_cases h12 : cmd = "exit"
    · subst h12; exact iff_of_false (fun hc => nomatch hc) (fun hc => nomatch hc)
    by_cases h13 : cmd = "get"
    · subst h13; cases rest with
      | nil => exact iff_of_true rfl rfl
      | cons a tl =>
        by_cases ht : a = "text"
        · subst ht; cases tl with
          | nil => exact iff_of_true rfl rfl
          | cons b tl2 => exact iff_of_false (fun hc => nomatch hc) (fun hc => nomatch hc)
        by_cases hu : a = "url"
        · subst hu; exact iff_of_false (fun hc => nomatch hc) (fun hc => nomatch hc)
        by_cases hti : a = "title"
        · subst hti; exact iff_of_false (fun hc => nomatch hc) (fun hc => nomatch hc)
        · simp [parse_command, translatesToNone, ht, hu, hti]
    by_cases h14 : cmd = "press"
    · subst h14; cases rest with
      | nil => exact iff_of_true rfl rfl
      | cons a tl => exact iff_of_false (fun hc => nomatch hc) (fun hc => nomatch hc)
    by_cases h15 : cmd = "wait"
    · subst h15; cases rest with
      | nil => exact iff_of_true rfl rfl
      | cons a tl =>
        have hw : parse_command id ("wait" :: a :: tl) =
            (match parseU64 a with
             | some n => some [("id", .jstr id), ("action", .jstr "wait"), ("timeout", .jnum n)]
             | none =>
               some [("id", .jstr id), ("action", .jstr "wait"), ("selector", .jstr a)]) := rfl
        rw [hw]
        cases parseU64 a <;>
          exact iff_of_false (fun hc => nomatch hc) (fun hc => nomatch hc)
    by_cases h16 : cmd = "back"
    · subst h16; exact iff_of_false (fun hc => nomatch hc) (fun hc => nomatch hc)
    by_cases h17 : cmd = "forward"
    · subst h17; exact iff_of_false (fun hc => nomatch hc) (fun hc => nomatch hc)
    by_cases h18 : cmd = "reload"
    · subst h18; exact iff_of_false (fun hc => nomatch hc) (fun hc => nomatch hc)
    by_cases h19 : cmd = "eval"
    · subst h19; exact iff_of_false (fun hc => nomatch hc) (fun hc => nomatch hc)
    · simp [parse_command, translatesToNone, h1, h2, h3, h4, h5, h6, h7, h8, h9, h10,
        h11, h12, h13, h14, h15, h16, h17, h18, h19]

/-! ## Claims about the top-level dispatch -/

/-- Claim C9, counterexample: the tokens `["install"]` are mapped to none by
the translator, yet the CLI does not report an unknown command or exit with
code 1 — `install` is dispatched before translation. -/
theorem install_skips_translator_counterexample :
    parse_command "r0" ["install"] = none ∧
    mainModel "r0" ["install"] = .installRun false ∧
    (mainModel "r0" ["install"]).reportsUnknown = false ∧
    (mainModel "r0" ["install"]).exitEarly ≠ some 1 := by
  refine ⟨rfl, rfl, rfl, by decide⟩

/-- Claim C9, amended: for every invocation that reaches the translator (the
filtered token list is nonempty, no help flag is present, and the first
filtered token is not `install`), if the translator maps the tokens to none
then the CLI reports the unknown command, exits with code 1, and makes no
daemon contact of any kind. -/
theorem unknown_command_no_daemon (id : String) (args : List String)
    (hne : cleanArgs args ≠ [])
    (hhelp : args.any (fun a => a = "--help" || a = "-h") = false)
    (hinst : (cleanArgs args).head? ≠ some "install")
    (hnone : parse_command id (cleanArgs args) = none) :
    mainModel id args = .unknownCmd (((cleanArgs args).head?).getD "") ∧
    (mainModel id args).reportsUnknown = true ∧
    (mainModel id args).exitEarly = some 1 ∧
    (mainModel id args).contactsDaemon = false := by
  have hm : mainModel id args = .unknownCmd (((cleanArgs args).head?).getD "") := by
    simp [mainModel, hnone, hinst, hhelp, hne, List.isEmpty_iff]
  exact ⟨hm, by rw [hm]; rfl, by rw [hm]; rfl, by rw [hm]; rfl⟩

/-- Claim C9, witness: the amended theorem applied to the concrete invocation
`frobnicate`. -/
theorem unknown_command_no_daemon_witness :
    mainModel "r0" ["frobnicate"] = .unknownCmd "frobnicate" ∧
    (mainModel "r0" ["frobnicate"]).exitEarly = some 1 ∧
    (mainModel "r0" ["frobnicate"]).contactsDaemon = false := by
  have h := unknown_command_no_daemon "r0" ["frobnicate"] (by decide) (by decide)
    (by decide) (by decide)
  exact ⟨h.1, h.2.2.1, h.2.2.2⟩

/-! ## Claims about the response renderer -/

/-- Claim C7: in human mode, a payload carrying both `url` and `title` string
fields renders as the two-line form (title, then dimmed URL), never the
single-line URL form, regardless of any other fields; and a failed response
with no error field renders the literal fallback `Unknown error`. -/
theorem render_priority_and_error_fallback :
    (∀ (data : JObj) (err : Option String) (url title : String),
        jget data "url" = some (.jstr url) →
        jget data "title" = some (.jstr title) →
        print_response_human ⟨true, some data, err⟩ =
          ⟨["\x1b[32m✓\x1b[0m \x1b[1m" ++ title ++ "\x1b[0m",
            "\x1b[2m  " ++ url ++ "\x1b[0m"], [], none⟩) ∧
    (∀ d : Option JObj,
        print_response_human ⟨false, d, none⟩ =
          ⟨[], ["\x1b[31m✗ Error:\x1b[0m Unknown error"], some 1⟩) := by
  constructor
  · intro data err url title hu ht
    simp [print_response_human, jgetStr, hu, ht]
  · intro d; rfl

/-- Claim C7, witness: the renderer evaluated on a concrete two-field payload
and on a concrete failed response with no error field. -/
theorem render_priority_witness :
    print_response_human
        ⟨true, some [("url", .jstr "https://e.com"), ("title", .jstr "E")], none⟩ =
      ⟨["\x1b[32m✓\x1b[0m \x1b[1mE\x1b[0m", "\x1b[2m  https://e.com\x1b[0m"], [], none⟩ ∧
    print_response_human ⟨false, none, none⟩ =
      ⟨[], ["\x1b[31m✗ Error:\x1b[0m Unknown error"], some 1⟩ :=
  ⟨render_priority_and_error_fallback.1 [("url", .jstr "https://e.com"), ("title", .jstr "E")]
      none "https://e.com" "E" rfl rfl,
   render_priority_and_error_fallback.2 none⟩

/-- Claim C10: in human mode a successful response with no payload prints
nothing at all and the process exits 0; the generic success message is
printed only when a payload is present but matches none of the known
shapes. -/
theorem empty_success_silent :
    (∀ err : Option String,
        print_response_human ⟨true, none, err⟩ = ⟨[], [], none⟩ ∧
        mainFinish ⟨true, none, err⟩ = (0, ⟨[], [], none⟩)) ∧
    (∀ (data : JObj) (err : Option String),
        jgetStr data "url" = none → jgetStr data "snapshot" = none →
        jgetStr data "title" = none → jgetStr data "text" = none →
        jget data "result" = none → jget data "closed" = none →
        print_response_human ⟨true, some data, err⟩ =
          ⟨["\x1b[32m✓\x1b[0m Done"], [], none⟩) := by
  constructor
  · intro err; exact ⟨rfl, rfl⟩
  · intro data err h1 h2 h3 h4 h5 h6
    simp [print_response_human, h1, h2, h3, h4, h5, h6]

/-- Claim C10, witness: evaluated at a payload-free success and at a payload
matching none of the known shapes. -/
theorem empty_success_silent_witness :
    print_response_human ⟨true, none, none⟩ = ⟨[], [], none⟩ ∧
    mainFinish ⟨true, none, none⟩ = (0, ⟨[], [], none⟩) ∧
    print_response_human ⟨true, some [("foo", .jnum 1)], none⟩ =
      ⟨["\x1b[32m✓\x1b[0m Done"], [], none⟩ :=
  ⟨(empty_success_silent.1 none).1, (empty_success_silent.1 none).2,
   empty_success_silent.2 [("foo", .jnum 1)] none rfl rfl rfl rfl rfl rfl⟩

/-! ## Claims about the daemon supervisor -/

/-- Claim C1: `ensure_daemon` returns `Ok` immediately, spawning nothing,
exactly when the liveness probe of the recorded PID succeeds and the socket
exists; when either fails it leaves the guard and proceeds to the start path.
The third conjunct decomposes the probe: the PID file must exist, its
contents must read and parse, and the zero signal must succeed. -/
theorem ensure_daemon_ready_guard (w : EnsureWorld) :
    (is_daemon_running w = true → w.socketAt 0 = true →
        ensure_daemon w = ⟨.ok (), true, false⟩) ∧
    ((is_daemon_running w = false ∨ w.socketAt 0 = false) →
        (ensure_daemon w).earlyOk = false) ∧
    (is_daemon_running w = true ↔
        w.pidFileExists = true ∧
        ∃ s pid, w.pidRead = some s ∧ parseI32 (trim_ws s) = some pid ∧
          w.probeOk pid = true) := by
  refine ⟨?_, ?_, ?_⟩
  · intro h1 h2
    simp [ensure_daemon, h1, h2]
  · intro h
    have hc : (is_daemon_running w && w.socketAt 0) = false := by
      rcases h with h | h <;> simp [h]
    simp only [ensure_daemon, hc, Bool.false_eq_true, if_false]
    cases hce : w.currentExe with
    | error e => rfl
    | ok u =>
      cases u
      cases hdf : w.daemonFound with
      | false => rfl
      | true =>
        cases hse : w.spawnErr with
        | some e => rfl
        | none =>
          cases hps : pollSocket (fun k => w.socketAt (k + 1)) 0 POLL_ATTEMPTS with
          | ok k => rfl
          | error e => rfl
  · cases hp : w.pidFileExists with
    | false => simp [is_daemon_running, hp]
    | true =>
      cases hr : w.pidRead with
      | none => simp [is_daemon_running, hp, hr]
      | some s =>
        cases hpid : parseI32 (trim_ws s) with
        | none => simp [is_daemon_running, hp, hr, hpid]
        | some pid => simp [is_daemon_running, hp, hr, hpid]

/-- Claim C1, witness: a world where the PID file holds a live PID and the
socket exists takes the early return; a world with no PID file does not. -/
theorem ensure_daemon_ready_guard_witness :
    ensure_daemon ⟨true, some " 42\n", fun _ => true, fun _ => true, .ok (), true, none⟩ =
      ⟨.ok (), true, false⟩ ∧
    (ensure_daemon ⟨false, none, fun _ => false, fun _ => false, .ok (), true, none⟩).earlyOk =
      false :=
  ⟨(ensure_daemon_ready_guard _).1 (by decide) rfl,
   (ensure_daemon_ready_guard _).2.1 (Or.inl (by decide))⟩

/-- Helper: the readiness poll returns attempt `k` exactly when the socket
first exists at attempt `k` within the window. -/
theorem pollSocket_ok_iff (f : Nat → Bool) (k : Nat) :
    ∀ r a, pollSocket f a r = .ok k ↔
      a ≤ k ∧ k < a + r ∧ f k = true ∧ ∀ j, a ≤ j → j < k → f j = false := by
  intro r
  induction r with
  | zero =>
    intro a
    simp only [pollSocket]
    constructor
    · intro h; exact absurd h (by simp)
    · rintro ⟨h1, h2, -⟩; omega
  | succ r ih =>
    intro a
    simp only [pollSocket]
    by_cases hf : f a = true
    · rw [if_pos hf]
      constructor
      · intro h
        injection h with hk
        subst hk
        exact ⟨Nat.le_refl a, by omega, hf,
          fun j hj1 hj2 => absurd (Nat.lt_of_le_of_lt hj1 hj2) (Nat.lt_irrefl a)⟩
      · rintro ⟨h1, h2, h3, h4⟩
        rcases Nat.eq_or_lt_of_le h1 with he | hlt
        · rw [he]
        · have hfa := h4 a (Nat.le_refl a) hlt
          rw [hfa] at hf
          exact absurd hf (by simp)
    · rw [if_neg hf]
      have hfa : f a = false := by
        cases hq : f a
        · rfl
        · exact absurd hq hf
      rw [ih (a + 1)]
      constructor
      · rintro ⟨h1, h2, h3, h4⟩
        refine ⟨by omega, by omega, h3, fun j hj1 hj2 => ?_⟩
        rcases Nat.eq_or_lt_of_le hj1 with he | hlt
        · rw [← he]; exact hfa
        · exact h4 j (by omega) hj2
      · rintro ⟨h1, h2, h3, h4⟩
        have hka : k ≠ a := by
          intro he
          rw [he, hfa] at h3
          exact Bool.noConfusion h3
        exact ⟨by omega, by omega, h3, fun j hj1 hj2 => h4 j (by omega) hj2⟩

/-- Helper: the readiness poll times out with the fixed error message exactly
when the socket never exists within the window. -/
theorem pollSocket_error_iff (f : Nat → Bool) :
    ∀ r a, pollSocket f a r = .error "Daemon failed to start" ↔
      ∀ j, a ≤ j → j < a + r → f j = false := by
  intro r
  induction r with
  | zero =>
    intro a
    simp only [pollSocket]
    constructor
    · intro _ j hj1 hj2; omega
    · intro _; trivial
  | succ r ih =>
    intro a
    simp only [pollSocket]
    by_cases hf : f a = true
    · rw [if_pos hf]
      constructor
      · intro h; exact absurd h (by simp)
      · intro h
        have hfa := h a (Nat.le_refl a) (by omega)
        rw [hfa] at hf
        exact absurd hf (by simp)
    · rw [if_neg hf]
      have hfa : f a = false := by
        cases hq : f a
        · rfl
        · exact absurd hq hf
      rw [ih (a + 1)]
      constructor
      · intro h j hj1 hj2
        rcases Nat.eq_or_lt_of_le hj1 with he | hlt
        · rw [← he]; exact hfa
        · exact h j (by omega) (by omega)
      · intro h j hj1 hj2
        exact h j (by omega) (by omega)

/-- Helper: the readiness poll always terminates, in success or in the fixed
timeout error. -/
theorem pollSocket_total (f : Nat → Bool) :
    ∀ r a, (∃ k, pollSocket f a r = .ok k) ∨
      pollSocket f a r = .error "Daemon failed to start" := by
  intro r
  induction r with
  | zero => intro a; exact Or.inr rfl
  | succ r ih =>
    intro a
    simp only [pollSocket]
    by_cases hf : f a = true
    · rw [if_pos hf]; exact Or.inl ⟨a, rfl⟩
    · rw [if_neg hf]; exact ih (a + 1)

/-- Claim C2: after spawning, `ensure_daemon` polls the socket at a fixed
100 ms interval for at most 50 attempts (a 5000 ms budget): it succeeds at
the first attempt at which the socket exists (having slept at most 4900 ms),
times out with the fixed error when the socket never appears, and always
terminates in one of the two; on the start path the result of
`ensure_daemon` itself is success or timeout accordingly. -/
theorem ensure_daemon_poll_bounded (f : Nat → Bool) :
    (∀ k, pollSocket f 0 POLL_ATTEMPTS = .ok k →
        f k = true ∧ k < POLL_ATTEMPTS ∧ (∀ j, j < k → f j = false) ∧
        POLL_INTERVAL_MS * k ≤ 4900) ∧
    ((∃ k, k < POLL_ATTEMPTS ∧ f k = true) →
        ∃ k, pollSocket f 0 POLL_ATTEMPTS = .ok k) ∧
    ((∀ k, k < POLL_ATTEMPTS → f k = false) →
        pollSocket f 0 POLL_ATTEMPTS = .error "Daemon failed to start") ∧
    ((∃ k, pollSocket f 0 POLL_ATTEMPTS = .ok k) ∨
        pollSocket f 0 POLL_ATTEMPTS = .error "Daemon failed to start") ∧
    POLL_INTERVAL_MS * POLL_ATTEMPTS = 5000 ∧
    (∀ w : EnsureWorld,
        (is_daemon_running w && w.socketAt 0) = false →
        w.currentExe = .ok () → w.daemonFound = true → w.spawnErr = none →
        (((ensure_daemon w).result = .ok ()) ↔
          ∃ k, k < POLL_ATTEMPTS ∧ w.socketAt (k + 1) = true) ∧
        (((ensure_daemon w).result = .error "Daemon failed to start") ↔
          ∀ k, k < POLL_ATTEMPTS → w.socketAt (k + 1) = false)) := by
  have hattempts : POLL_ATTEMPTS = 50 := rfl
  refine ⟨?_, ?_, ?_, pollSocket_total f POLL_ATTEMPTS 0, rfl, ?_⟩
  · intro k h
    rw [pollSocket_ok_iff] at h
    obtain ⟨-, h2, h3, h4⟩ := h
    refine ⟨h3, by omega, fun j hj => h4 j (Nat.zero_le j) hj, ?_⟩
    have hk : k ≤ 49 := by omega
    calc POLL_INTERVAL_MS * k ≤ POLL_INTERVAL_MS * 49 :=
          Nat.mul_le_mul_left POLL_INTERVAL_MS hk
      _ = 4900 := rfl
  · rintro ⟨k, hk, hfk⟩
    rcases pollSocket_total f POLL_ATTEMPTS 0 with h | h
    · exact h
    · rw [pollSocket_error_iff] at h
      have hfa := h k (Nat.zero_le k) (by omega)
      rw [hfa] at hfk
      exact absurd hfk (by simp)
  · intro h
    rw [pollSocket_error_iff]
    intro j hj1 hj2
    exact h j (by omega)
  · intro w hguard hexe hfound hspawn
    have hres : (ensure_daemon w).result =
        (match pollSocket (fun k => w.socketAt (k + 1)) 0 POLL_ATTEMPTS with
         | .ok _ => Except.ok ()
         | .error e => Except.error e) := by
      simp only [ensure_daemon, hguard, Bool.false_eq_true, if_false, hexe, hfound,
        Bool.not_true, hspawn]
      cases pollSocket (fun k => w.socketAt (k + 1)) 0 POLL_ATTEMPTS <;> rfl
    rw [hres]
    rcases pollSocket_total (fun k => w.socketAt (k + 1)) POLL_ATTEMPTS 0 with ⟨k, hk⟩ | herr
    · rw [hk]
      rw [pollSocket_ok_iff] at hk
      obtain ⟨-, hlt, hfk, -⟩ := hk
      constructor
      · exact iff_of_true rfl ⟨k, by omega, hfk⟩
      · constructor
        · intro hcon; exact absurd hcon (by simp)
        · intro hall
          have hfa := hall k (by omega)
          rw [hfa] at hfk
          exact absurd hfk (by simp)
    · rw [herr]
      have herr2 := herr
      rw [pollSocket_error_iff] at herr2
      constructor
      · constructor
        · intro hcon; exact absurd hcon (by simp)
        · rintro ⟨k, hk, hfk⟩
          have hfa := herr2 k (Nat.zero_le k) (by omega)
          rw [hfa] at hfk
          exact absurd hfk (by simp)
      · exact iff_of_true rfl (fun k hk => herr2 k (Nat.zero_le k) (by omega))

/-- Claim C2, witness: the poll succeeds when the socket appears at attempt 3
and times out with the fixed message when it never appears. -/
theorem ensure_daemon_poll_bounded_witness :
    (∃ k, pollSocket (fun k => decide (k = 3)) 0 POLL_ATTEMPTS = .ok k) ∧
    pollSocket (fun _ => false) 0 POLL_ATTEMPTS = .error "Daemon failed to start" :=
  ⟨(ensure_daemon_poll_bounded (fun k => decide (k = 3))).2.1 ⟨3, by decide, by decide⟩,
   (ensure_daemon_poll_bounded (fun _ => false)).2.2.1 (fun k _ => rfl)⟩

end AgentBrowser
